import Mathlib

/-!
Shallow embedding of the chihaya UDP BitTorrent tracker front end:
server/udp/connection_id.go, server/udp/protocol.go, server/udp/writer.go and
tracker/tracker.go.

Modelling conventions:
- byte strings are `List Nat`, one octet per element;
- times are integral Unix seconds (`Int`);
- the external HMAC-SHA256 primitive (crypto/hmac over minio/sha256-simd,
  both outside this repository) is an explicit function parameter
  `macf : List Nat -> List Nat -> List Nat` mapping (key, message) to the
  full digest; the code only ever truncates it to its first 4 bytes;
- the Go standard library net.ParseIP / IP.To4 / IP.To16 are transcribed
  from the Go 1.6-era standard library sources, since the repository calls
  them on raw packet bytes;
- Go operations that panic (out-of-range slicing) are modelled by `Option`,
  `none` standing for the panic;
- the tracker middleware chains behind HandleAnnounce / HandleScrape are
  external collaborators and appear as function parameters.
-/

/-- binary.BigEndian: interpret a byte list as a big-endian natural. -/
def beNat (bs : List Nat) : Nat :=
  bs.foldl (fun acc b => acc * 256 + b) 0

/-- binary.BigEndian.PutUint32: the four big-endian bytes of a 32-bit value. -/
def putUint32 (n : Nat) : List Nat :=
  [n / 16777216 % 256, n / 65536 % 256, n / 256 % 256, n % 256]

/-- binary.BigEndian.PutUint16. -/
def putUint16 (n : Nat) : List Nat :=
  [n / 256 % 256, n % 256]

/-- Go int32 conversion of a u32 bit pattern (two's complement). -/
def int32Of (n : Nat) : Int :=
  if n < 2147483648 then (n : Int) else (n : Int) - 4294967296

/-! ### Go standard library net package (Go 1.6 era), transcribed -/

/-- The 12-byte head marking an IPv4-mapped address in 16-byte form
(net.v4InV6Prefix). -/
def v4InV6Head : List Nat := [0, 0, 0, 0, 0, 0, 0, 0, 0, 0, 255, 255]

/-- net.IP.To4: a 4-byte address is returned as is; a 16-byte IPv4-mapped
address is shortened to its last 4 bytes; anything else yields nil. -/
def ipTo4 (ip : List Nat) : Option (List Nat) :=
  if ip.length = 4 then some ip
  else if ip.length = 16 ∧ ip.take 12 = v4InV6Head then some (ip.drop 12)
  else none

/-- net.IP.To16. -/
def ipTo16 (ip : List Nat) : Option (List Nat) :=
  if ip.length = 4 then some (v4InV6Head ++ ip)
  else if ip.length = 16 then some ip
  else none

/-- net.dtoi: read a decimal number off the front of the characters,
returning (value, characters consumed, ok); overflow is capped at the
constant net.big = 0xFFFFFF and reported as not ok. -/
def dtoiCore : List Nat → Nat → Nat → Nat × Nat × Bool
  | [], n, cnt => (n, cnt, decide (cnt ≠ 0))
  | c :: rest, n, cnt =>
    if 48 ≤ c ∧ c ≤ 57 then
      let n2 := n * 10 + (c - 48)
      if 16777215 ≤ n2 then (16777215, cnt, false)
      else dtoiCore rest n2 (cnt + 1)
    else (n, cnt, decide (cnt ≠ 0))

/-- Value of a hexadecimal digit character, if it is one. -/
def hexVal (c : Nat) : Option Nat :=
  if 48 ≤ c ∧ c ≤ 57 then some (c - 48)
  else if 97 ≤ c ∧ c ≤ 102 then some (c - 87)
  else if 65 ≤ c ∧ c ≤ 70 then some (c - 55)
  else none

/-- net.xtoi: read a hexadecimal number off the front of the characters,
returning (value, characters consumed, ok). -/
def xtoiCore : List Nat → Nat → Nat → Nat × Nat × Bool
  | [], n, cnt => (n, cnt, decide (cnt ≠ 0))
  | c :: rest, n, cnt =>
    match hexVal c with
    | some d =>
      let n2 := n * 16 + d
      if 16777215 ≤ n2 then (0, cnt, false)
      else xtoiCore rest n2 (cnt + 1)
    | none => (n, cnt, decide (cnt ≠ 0))

/-- net.parseIPv4, one dotted-decimal octet at a time; the fuel argument is
the number of octets still expected (4 at the top call). On success the
16-byte IPv4-in-IPv6 form is returned, as net.IPv4 does. -/
def parseIPv4Aux (s : List Nat) : Nat → Nat → List Nat → Option (List Nat)
  | 0, i, acc => if i = s.length then some (v4InV6Head ++ acc.reverse) else none
  | j + 1, i, acc =>
    if s.length ≤ i then none
    else if acc.isEmpty = false ∧ s.getD i 0 ≠ 46 then none
    else
      let i2 := if acc.isEmpty then i else i + 1
      let r := dtoiCore (s.drop i2) 0 0
      if r.2.2 = false ∨ 255 < r.1 then none
      else parseIPv4Aux s j (i2 + r.2.1) (r.1 :: acc)

/-- net.parseIPv4. -/
def parseIPv4 (s : List Nat) : Option (List Nat) :=
  parseIPv4Aux s 4 0 []

/-- One pass of the net.parseIPv6 grouping loop (fuel bounds the at most
eight 16-bit groups). Returns the final (ip, i, ellipsis, remaining s)
state, or none for a parse failure. -/
def parseIPv6Loop : Nat → List Nat → List Nat → Nat → Option Nat →
    Option (List Nat × Nat × Option Nat × List Nat)
  | 0, s, ip, i, ell => some (ip, i, ell, s)
  | fuel + 1, s, ip, i, ell =>
    if 16 ≤ i then some (ip, i, ell, s)
    else
      let r := xtoiCore s 0 0
      if r.2.2 = false ∨ 65535 < r.1 then none
      else if r.2.1 < s.length ∧ s.getD r.2.1 0 = 46 then
        if ell.isNone ∧ i ≠ 12 then none
        else if 16 < i + 4 then none
        else
          match parseIPv4 s with
          | none => none
          | some ip4 =>
            let ip2 := ((((ip.set i (ip4.getD 12 0)).set (i + 1) (ip4.getD 13 0)).set
              (i + 2) (ip4.getD 14 0)).set (i + 3) (ip4.getD 15 0))
            some (ip2, i + 4, ell, [])
      else
        let ip2 := (ip.set i (r.1 / 256)).set (i + 1) (r.1 % 256)
        let i2 := i + 2
        let s2 := s.drop r.2.1
        if s2.length = 0 then some (ip2, i2, ell, s2)
        else if s2.getD 0 0 ≠ 58 ∨ s2.length = 1 then none
        else
          let s3 := s2.drop 1
          if s3.getD 0 0 = 58 then
            if ell.isSome then none
            else
              let s4 := s3.drop 1
              if s4.length = 0 then some (ip2, i2, some i2, s4)
              else parseIPv6Loop fuel s4 ip2 i2 (some i2)
          else parseIPv6Loop fuel s3 ip2 i2 ell

/-- net.parseIPv6 epilogue: the whole string must have been consumed, and a
short address is completed by expanding the ellipsis with zero groups. -/
def parseIPv6Finish : Option (List Nat × Nat × Option Nat × List Nat) →
    Option (List Nat)
  | none => none
  | some (ip, i, ell, s) =>
    if s.length ≠ 0 then none
    else if i < 16 then
      match ell with
      | none => none
      | some e => some (ip.take e ++ List.replicate (16 - i) 0 ++ ((ip.drop e).take (i - e)))
    else if ell.isSome then none
    else some ip

/-- net.parseIPv6 (zones disallowed, as in net.ParseIP). -/
def parseIPv6 (s : List Nat) : Option (List Nat) :=
  if 2 ≤ s.length ∧ s.getD 0 0 = 58 ∧ s.getD 1 0 = 58 then
    let s1 := s.drop 2
    if s1.length = 0 then some (List.replicate 16 0)
    else parseIPv6Finish (parseIPv6Loop 8 s1 (List.replicate 16 0) 0 (some 0))
  else parseIPv6Finish (parseIPv6Loop 8 s (List.replicate 16 0) 0 none)

/-- net.ParseIP: scan for the first dot or colon and hand off to the
corresponding family parser; a string with neither is not an IP. -/
def parseIP (s : List Nat) : Option (List Nat) :=
  match s.find? (fun c => c == 46 || c == 58) with
  | some 46 => parseIPv4 s
  | some 58 => parseIPv6 s
  | _ => none

/-! ### server/udp/connection_id.go -/

/-- ttl: seconds a connection ID stays valid (2 minutes, BEP 15). -/
def ttlSeconds : Int := 120

/-- maxClockSkew: seconds of leeway for unsynchronized clocks. -/
def maxClockSkewSeconds : Int := 10

/-- NewConnectionID: 4 big-endian bytes of uint32(now.Unix()) followed by
the first 4 bytes of HMAC-SHA256(key, timestamp bytes concatenated with the
source IP bytes). -/
def NewConnectionID (macf : List Nat → List Nat → List Nat)
    (ip : List Nat) (now : Int) (key : List Nat) : List Nat :=
  let ts4 := putUint32 (now.emod 4294967296).toNat
  ts4 ++ (macf key (ts4 ++ ip)).take 4

/-- ValidConnectionID. The Go code slices connectionID[:4] unconditionally,
which panics when the ID is shorter than 4 bytes; that panic is `none`.
Otherwise the timestamp window is checked and then the recomputed truncated
MAC is compared (hmac.Equal: equal lengths and equal contents). -/
def ValidConnectionID (macf : List Nat → List Nat → List Nat)
    (connectionID ip : List Nat) (now : Int) (key : List Nat) : Option Bool :=
  if connectionID.length < 4 then none
  else
    let ts : Int := (beNat (connectionID.take 4) : Int)
    if ts + ttlSeconds < now ∨ now + maxClockSkewSeconds < ts then some false
    else
      let expectedMAC := (macf key (connectionID.take 4 ++ ip)).take 4
      some (decide (expectedMAC = connectionID.drop 4))

/-! ### tracker/tracker.go and the chihaya request/response types -/

/-- Errors flowing to the Writer. tracker.ClientError values are echoed to
clients; any other Go error is an internal error. -/
inductive TrackerError where
  | clientError (msg : String)
  | internalError (msg : String)
deriving DecidableEq, Repr

def errMalformedPacket : TrackerError := .clientError "malformed packet"
def errMalformedIP : TrackerError := .clientError "malformed IP address"
def errMalformedEvent : TrackerError := .clientError "malformed event ID"
def errUnknownAction : TrackerError := .clientError "unknown action ID"
def errBadConnectionID : TrackerError := .clientError "bad connection ID"

/-- pkg/event values reachable from the UDP front end. -/
inductive Event where
  | none
  | completed
  | started
  | stopped
deriving DecidableEq, Repr

/-- eventIDs: the BEP 15 wire values 0..3 in order. -/
def eventIDs : List Event := [.none, .completed, .started, .stopped]

/-- chihaya.AnnounceRequest, the fields the UDP decoder fills.  The Params
field is omitted: the source leaves BEP 41 URL data unparsed (a TODO) and
always returns nil params. -/
structure AnnounceRequest where
  event : Event
  infoHash : List Nat
  peerID : List Nat
  ipv4 : List Nat
  ipv6 : Option (List Nat)
  port : Nat
  numWant : Int
  left : Nat
  downloaded : Nat
  uploaded : Nat
deriving DecidableEq, Repr

/-- chihaya.Peer as the UDP writer consumes it. -/
structure Peer where
  ip : List Nat
  port : Nat
deriving DecidableEq, Repr

/-- chihaya.AnnounceResponse, the fields the UDP writer consumes
(interval already in whole seconds). -/
structure AnnounceResponse where
  interval : Nat
  complete : Nat
  incomplete : Nat
  ipv4Peers : List Peer
  ipv6Peers : List Peer
deriving DecidableEq, Repr

/-- Modelled from the spec: chihaya.Scrape (not under src/) is the
per-torrent statistics triple {complete, downloaded, incomplete}. -/
structure Scrape where
  complete : Nat
  downloaded : Nat
  incomplete : Nat
deriving DecidableEq, Repr, Inhabited

/-- chihaya.ScrapeResponse: one Scrape per requested info-hash. -/
structure ScrapeResponse where
  files : List Scrape
deriving DecidableEq, Repr

/-- udpConfig, the fields the packet handlers consume. -/
structure UdpConfig where
  privateKey : List Nat
  allowIPSpoofing : Bool

/-! ### server/udp/protocol.go -/

/-- initialConnectionID: the magic initial connection ID of BEP 15. -/
def initialConnectionID : List Nat := [0, 0, 4, 23, 39, 16, 25, 128]

/-- emptyIPv4: a blank IPv4 override field. -/
def emptyIPv4 : List Nat := [0, 0, 0, 0]

/-- emptyIPv6: a blank IPv6 option field. -/
def emptyIPv6 : List Nat := List.replicate 16 0

/-- The loop of handleOptionalParameters, walking BEP 41 / BEP 45 options
from byte offset idx (98 at the top call).  Each arm mirrors one case of
the Go switch, including the exact bound checks and strides the code uses.
Every arm either stops or strictly increases idx, so the loop runs at most
packet.length iterations; the structural fuel argument makes that explicit
and is supplied as packet.length by the caller, which never runs out. -/
def walkOptions (cfg : UdpConfig) (packet : List Nat) :
    Nat → Nat → Option (List Nat) → Except TrackerError (Option (List Nat))
  | 0, _, ipv6 => .ok ipv6
  | fuel + 1, idx, ipv6 =>
    if idx < packet.length - 1 then
      match packet.getD idx 0 with
      | 0 => .ok ipv6
      | 1 => walkOptions cfg packet fuel (idx + 1) ipv6
      | 2 =>
        if packet.length - 1 < idx + 1 then .error errMalformedPacket
        else
          let len := packet.getD (idx + 1) 0
          if packet.length - 1 < idx + 1 + len then .error errMalformedPacket
          else walkOptions cfg packet fuel (idx + 1 + len) ipv6
      | 3 =>
        if packet.length - 1 < idx + 19 then .error errMalformedPacket
        else
          let ipv6bytes := (packet.drop (idx + 1)).take 16
          if cfg.allowIPSpoofing ∧ ipv6bytes ≠ emptyIPv6 then
            match (parseIP ipv6bytes).bind ipTo16 with
            | none => .error errMalformedIP
            | some v6 => walkOptions cfg packet fuel (idx + 19) (some v6)
          else walkOptions cfg packet fuel (idx + 19) ipv6
      | _ => .ok ipv6
    else .ok ipv6

/-- handleOptionalParameters: nothing to do unless the packet extends past
the 98 fixed announce bytes. -/
def handleOptionalParameters (cfg : UdpConfig) (packet : List Nat) :
    Except TrackerError (Option (List Nat)) :=
  if packet.length ≤ 98 then .ok none
  else walkOptions cfg packet packet.length 98 none

/-- parseAnnounce: fixed-offset announce fields, the IPv4 override rule,
num_want clamping, and the optional-parameter walk. -/
def parseAnnounce (cfg : UdpConfig) (packet : List Nat) (srcIP : List Nat) :
    Except TrackerError AnnounceRequest :=
  if packet.length < 98 then .error errMalformedPacket
  else
    let eventID := packet.getD 83 0
    if 3 < eventID then .error errMalformedEvent
    else
      let ipv4bytes := (packet.drop 84).take 4
      let oip : Option (List Nat) :=
        if cfg.allowIPSpoofing ∧ ipv4bytes ≠ emptyIPv4 then parseIP ipv4bytes
        else some srcIP
      match oip with
      | none => .error errMalformedIP
      | some ip1 =>
        let ip2 := match ipTo4 ip1 with
          | some v4 => v4
          | none => ip1
        let numWant0 := int32Of (beNat ((packet.drop 92).take 4))
        match handleOptionalParameters cfg packet with
        | .error e => .error e
        | .ok ipv6 =>
          .ok {
            event := eventIDs.getD eventID .none
            infoHash := (packet.drop 16).take 20
            peerID := (packet.drop 36).take 20
            ipv4 := ip2
            ipv6 := ipv6
            port := beNat ((packet.drop 96).take 2)
            numWant := if numWant0 ≤ 0 then 0 else numWant0
            left := beNat ((packet.drop 64).take 8)
            downloaded := beNat ((packet.drop 56).take 8)
            uploaded := beNat ((packet.drop 72).take 8)
          }

/-- The infohash-collecting loop of parseScrape: consume 20-byte blocks
while at least 20 bytes remain.  Each pass removes 20 bytes, so the loop
runs fewer than the initial length of iterations; the structural fuel
argument makes that explicit and the caller supplies the initial length. -/
def infohashLoop : Nat → List Nat → List (List Nat)
  | 0, _ => []
  | fuel + 1, rest =>
    if 20 ≤ rest.length then rest.take 20 :: infohashLoop fuel (rest.drop 20)
    else []

/-- parseScrape: at least 36 bytes, a whole number of 20-byte info-hashes
after the 16-byte header, and the blocks in packet order. -/
def parseScrape (packet : List Nat) : Except TrackerError (List (List Nat)) :=
  if packet.length < 36 then .error errMalformedPacket
  else
    let rest := packet.drop 16
    if rest.length % 20 ≠ 0 then .error errMalformedPacket
    else .ok (infohashLoop rest.length rest)

/-! ### server/udp/writer.go -/

/-- Byte form of an error reason string (all reasons are ASCII). -/
def asciiBytes (s : String) : List Nat := s.data.map Char.toNat

/-- WriteError rewrites non-client errors as an internal-error reason
before writing; the reason is written followed by one NUL byte. -/
def errorMessageBytes : TrackerError → List Nat
  | .clientError msg => asciiBytes msg
  | .internalError msg => asciiBytes "internal error occurred: " ++ asciiBytes msg

/-- Writer.writeHeader: action (u32 big-endian) then the transaction ID. -/
def writeHeader (action : Nat) (txID : List Nat) : List Nat :=
  putUint32 action ++ txID

/-- Writer.WriteError: header with action 3, reason, NUL. -/
def writeError (txID : List Nat) (e : TrackerError) : List Nat :=
  writeHeader 3 txID ++ errorMessageBytes e ++ [0]

/-- Writer.WriteConnectionID: header with action 0, then the 8-byte ID. -/
def writeConnectionID (txID connID : List Nat) : List Nat :=
  writeHeader 0 txID ++ connID

/-- One compact peer record: IP bytes then the port (u16 big-endian). -/
def peerBytes (p : Peer) : List Nat := p.ip ++ putUint16 p.port

/-- Writer.WriteAnnounce for the BEP 15 IPv4 format (action 1). -/
def writeAnnounceIPv4 (txID : List Nat) (resp : AnnounceResponse) : List Nat :=
  resp.ipv4Peers.foldl (fun buf p => buf ++ peerBytes p)
    (writeHeader 1 txID ++ putUint32 resp.interval ++ putUint32 resp.incomplete ++
      putUint32 resp.complete)

/-- Writer.WriteAnnounceIPv6 for the BEP 45 dual-stack format (action 4). -/
def writeAnnounceIPv6 (txID : List Nat) (resp : AnnounceResponse) : List Nat :=
  resp.ipv6Peers.foldl (fun buf p => buf ++ peerBytes p)
    (resp.ipv4Peers.foldl (fun buf p => buf ++ peerBytes p)
      (writeHeader 4 txID ++ putUint32 resp.interval ++ putUint32 resp.incomplete ++
        putUint32 resp.complete ++ putUint32 resp.ipv4Peers.length ++
        putUint32 resp.ipv6Peers.length))

/-- Writer.WriteAnnounce: dual-stack format exactly when the response
carries IPv6 peers. -/
def writeAnnounce (txID : List Nat) (resp : AnnounceResponse) : List Nat :=
  if 0 < resp.ipv6Peers.length then writeAnnounceIPv6 txID resp
  else writeAnnounceIPv4 txID resp

/-- Writer.WriteScrape: header with action 2, then for every file its
complete count, a literal zero u32 (snatches are not tracked), and its
incomplete count. -/
def writeScrape (txID : List Nat) (resp : ScrapeResponse) : List Nat :=
  resp.files.foldl
    (fun buf f => buf ++ putUint32 f.complete ++ putUint32 0 ++ putUint32 f.incomplete)
    (writeHeader 2 txID)

/-! ### Server.handlePacket -/

/-- Server.handlePacket. The tracker middleware chains are the function
parameters hAnnounce and hScrape; macf is HMAC-SHA256 and now the current
time. The result is (response bytes, action name, error); `Option.none`
models a Go panic, which never occurs on this path because the connection
ID slice always has 8 bytes once the 16-byte minimum holds. -/
def handlePacket (cfg : UdpConfig) (macf : List Nat → List Nat → List Nat) (now : Int)
    (hAnnounce : AnnounceRequest → Except TrackerError AnnounceResponse)
    (hScrape : List (List Nat) → Except TrackerError ScrapeResponse)
    (packet : List Nat) (srcIP : List Nat) :
    Option (List Nat × String × Option TrackerError) :=
  if packet.length < 16 then some ([], "", some errMalformedPacket)
  else
    let connID := packet.take 8
    let actionID := beNat ((packet.drop 8).take 4)
    let txID := (packet.drop 12).take 4
    if actionID = 0 then
      if connID ≠ initialConnectionID then some ([], "connect", some errMalformedPacket)
      else
        some (writeConnectionID txID (NewConnectionID macf srcIP now cfg.privateKey),
          "connect", Option.none)
    else
      match ValidConnectionID macf connID srcIP now cfg.privateKey with
      | Option.none => Option.none
      | some valid =>
        if valid = false then
          some (writeError txID errBadConnectionID, "", some errBadConnectionID)
        else if actionID = 1 then
          match parseAnnounce cfg packet srcIP with
          | .error e => some (writeError txID e, "announce", some e)
          | .ok req =>
            match hAnnounce req with
            | .error e => some (writeError txID e, "announce", some e)
            | .ok resp => some (writeAnnounce txID resp, "announce", Option.none)
        else if actionID = 2 then
          match parseScrape packet with
          | .error e => some (writeError txID e, "scrape", some e)
          | .ok req =>
            match hScrape req with
            | .error e => some (writeError txID e, "scrape", some e)
            | .ok resp => some (writeScrape txID resp, "scrape", Option.none)
        else
          some (writeError txID errUnknownAction, "", some errUnknownAction)

/-! ### Concrete fixtures used by witnesses and counterexamples -/

/-- A stand-in for the HMAC-SHA256 digest function: constant 32-byte
digest.  The properties proved here never depend on digest contents. -/
def macf0 : List Nat → List Nat → List Nat := fun _ _ => List.replicate 32 0

/-- A configuration with spoofing disabled. -/
def cfg0 : UdpConfig := { privateKey := [], allowIPSpoofing := false }

/-- A configuration with spoofing allowed. -/
def cfgSpoof : UdpConfig := { privateKey := [], allowIPSpoofing := true }

/-- A stand-in announce middleware chain. -/
def hAnnounce0 : AnnounceRequest → Except TrackerError AnnounceResponse :=
  fun _ => .ok { interval := 1800, complete := 0, incomplete := 0,
                 ipv4Peers := [], ipv6Peers := [] }

/-- A stand-in scrape middleware chain. -/
def hScrape0 : List (List Nat) → Except TrackerError ScrapeResponse :=
  fun hashes => .ok { files := hashes.map (fun _ => { complete := 0, downloaded := 0, incomplete := 0 }) }

/-- A source address. -/
def ip0 : List Nat := [127, 0, 0, 1]

/-- Decidable equality for Except results, so concrete runs of the decoders
can be checked by decide. -/
instance {ε α : Type} [DecidableEq ε] [DecidableEq α] : DecidableEq (Except ε α) := fun a b =>
  match a, b with
  | .error x, .error y =>
    if h : x = y then isTrue (by rw [h]) else isFalse (fun hh => by cases hh; exact h rfl)
  | .error _, .ok _ => isFalse (fun hh => by cases hh)
  | .ok _, .error _ => isFalse (fun hh => by cases hh)
  | .ok x, .ok y =>
    if h : x = y then isTrue (by rw [h]) else isFalse (fun hh => by cases hh; exact h rfl)

/-- The byte indices walkOptions reads from the packet, mirroring its
control flow arm by arm: the option type byte at idx, the URL-data length
byte at idx + 1, and the 16 IPv6 address bytes at idx + 1 .. idx + 16
(sliced out for the all-zero comparison and the IP parse). -/
def walkReads (packet : List Nat) : Nat → Nat → List Nat
  | 0, _ => []
  | fuel + 1, idx =>
    if idx < packet.length - 1 then
      idx ::
        (match packet.getD idx 0 with
        | 0 => []
        | 1 => walkReads packet fuel (idx + 1)
        | 2 =>
          if packet.length - 1 < idx + 1 then []
          else
            (idx + 1) ::
              (if packet.length - 1 < idx + 1 + packet.getD (idx + 1) 0 then []
               else walkReads packet fuel (idx + 1 + packet.getD (idx + 1) 0))
        | 3 =>
          if packet.length - 1 < idx + 19 then []
          else ((List.range 16).map (fun k => idx + 1 + k)) ++ walkReads packet fuel (idx + 19)
        | _ => [])
    else []

/-! ### Helper lemmas -/

theorem putUint32_length (n : Nat) : (putUint32 n).length = 4 := rfl

theorem beNat_putUint32 (n : Nat) : beNat (putUint32 n) = n % 4294967296 := by
  simp only [beNat, putUint32, List.foldl]
  omega

/-- Core characterisation of a successful connection-ID validation for any
ID of at least 4 bytes (so the Go slices do not panic). -/
theorem validConnectionID_true_iff (macf : List Nat → List Nat → List Nat)
    (id ip key : List Nat) (now : Int) (h4 : 4 ≤ id.length) :
    ValidConnectionID macf id ip now key = some true ↔
      (now ≤ (beNat (id.take 4) : Int) + 120 ∧
       (beNat (id.take 4) : Int) ≤ now + 10 ∧
       (macf key (id.take 4 ++ ip)).take 4 = id.drop 4) := by
  unfold ValidConnectionID
  rw [if_neg (by omega)]
  by_cases htime :
      ((beNat (id.take 4) : Int) + ttlSeconds < now ∨
        now + maxClockSkewSeconds < (beNat (id.take 4) : Int))
  · rw [if_pos htime]
    simp only [ttlSeconds, maxClockSkewSeconds] at htime
    constructor
    · intro hcontra
      exact absurd hcontra (by simp)
    · rintro ⟨ha, hb, -⟩
      omega
  · rw [if_neg htime]
    simp only [ttlSeconds, maxClockSkewSeconds] at htime
    simp only [Option.some.injEq, decide_eq_true_eq]
    constructor
    · intro heq
      exact ⟨by omega, by omega, heq⟩
    · rintro ⟨-, -, heq⟩
      exact heq

/-- C1: for every 8-byte connection ID whose first 4 bytes encode a
big-endian u32 timestamp ts, every source IP, time now and key,
ValidConnectionID returns true exactly when now ≤ ts + 120s, ts ≤ now + 10s,
and bytes 4..8 of the ID equal the first 4 bytes of
HMAC-SHA256(key, id[0..4] concatenated with the IP bytes). -/
theorem ValidConnectionID_spec (macf : List Nat → List Nat → List Nat)
    (id ip key : List Nat) (now : Int) (h8 : id.length = 8) :
    ValidConnectionID macf id ip now key = some true ↔
      (now ≤ (beNat (id.take 4) : Int) + 120 ∧
       (beNat (id.take 4) : Int) ≤ now + 10 ∧
       id.drop 4 = (macf key (id.take 4 ++ ip)).take 4) := by
  rw [validConnectionID_true_iff macf id ip key now (by omega)]
  exact ⟨fun ⟨a, b, c⟩ => ⟨a, b, c.symm⟩, fun ⟨a, b, c⟩ => ⟨a, b, c.symm⟩⟩

/-- Witness for C1 at a concrete 8-byte ID, IP, time and key. -/
theorem ValidConnectionID_spec_witness :
    (List.replicate 8 0 : List Nat).length = 8 ∧
    (ValidConnectionID macf0 (List.replicate 8 0) ip0 5 [] = some true ↔
      ((5 : Int) ≤ (beNat ((List.replicate 8 0 : List Nat).take 4) : Int) + 120 ∧
       (beNat ((List.replicate 8 0 : List Nat).take 4) : Int) ≤ 5 + 10 ∧
       (List.replicate 8 0 : List Nat).drop 4 =
         (macf0 [] ((List.replicate 8 0 : List Nat).take 4 ++ ip0)).take 4)) :=
  ⟨by decide, ValidConnectionID_spec macf0 (List.replicate 8 0) ip0 [] 5 (by decide)⟩

/-- C2 counterexample: at mint time t = 2^32 (which does not fit the u32
timestamp field and is truncated to 0) and verify time t' = t, the freshly
minted ID fails verification even though t - 10 ≤ t' ≤ t + 120, so the
claimed equivalence does not hold for all times. -/
theorem NewConnectionID_roundtrip_cex :
    ValidConnectionID macf0 (NewConnectionID macf0 ip0 4294967296 []) ip0 4294967296 []
      = some false ∧
    ((4294967296 : Int) - 10 ≤ 4294967296 ∧ (4294967296 : Int) ≤ 4294967296 + 120) :=
  ⟨by decide, by decide, by decide⟩

/-- C2 (amended): for every IP, key and times t, t' where t fits the u32
timestamp field (0 ≤ t < 2^32), verifying a freshly minted connection ID
succeeds exactly when t - 10 ≤ t' ≤ t + 120. -/
theorem NewConnectionID_roundtrip_window (macf : List Nat → List Nat → List Nat)
    (ip key : List Nat) (t tp : Int) (h0 : 0 ≤ t) (h1 : t < 4294967296) :
    ValidConnectionID macf (NewConnectionID macf ip t key) ip tp key = some true ↔
      (t - 10 ≤ tp ∧ tp ≤ t + 120) := by
  have hts4 : (putUint32 (t.emod 4294967296).toNat).length = 4 := putUint32_length _
  have htake : (NewConnectionID macf ip t key).take 4
      = putUint32 (t.emod 4294967296).toNat := by
    unfold NewConnectionID
    exact List.take_left' hts4
  have hdrop : (NewConnectionID macf ip t key).drop 4
      = (macf key (putUint32 (t.emod 4294967296).toNat ++ ip)).take 4 := by
    unfold NewConnectionID
    exact List.drop_left' hts4
  have hlen : 4 ≤ (NewConnectionID macf ip t key).length := by
    unfold NewConnectionID
    rw [List.length_append, hts4]
    omega
  rw [validConnectionID_true_iff macf _ ip key tp hlen, htake, hdrop]
  have hemod : t.emod 4294967296 = t := Int.emod_eq_of_lt h0 h1
  have hX : ((beNat (putUint32 (t.emod 4294967296).toNat) : Nat) : Int) = t := by
    rw [beNat_putUint32, hemod]
    omega
  rw [hX]
  simp only [and_true]
  constructor
  · rintro ⟨ha, hb⟩
    omega
  · rintro ⟨ha, hb⟩
    exact ⟨by omega, by omega⟩

/-- Witness for C2 (amended) at t = 1000, t' = 1100. -/
theorem NewConnectionID_roundtrip_window_witness :
    ((0 : Int) ≤ 1000 ∧ (1000 : Int) < 4294967296) ∧
    (ValidConnectionID macf0 (NewConnectionID macf0 ip0 1000 []) ip0 1100 [] = some true ↔
      ((1000 : Int) - 10 ≤ 1100 ∧ (1100 : Int) ≤ 1000 + 120)) :=
  ⟨⟨by decide, by decide⟩,
   NewConnectionID_roundtrip_window macf0 ip0 [] 1000 1100 (by decide) (by decide)⟩

/-- C3 failing input: a 16-byte connect packet whose connection ID is not
the BEP 15 magic value.  handlePacket sets the malformed-packet error but
returns without writing anything to the Writer, so the response is empty
even though the packet is 16 bytes long; the claim (and the spec, scenario
S2) say every packet of at least 16 bytes gets a response frame. -/
theorem handlePacket_badMagic_noResponse :
    handlePacket cfg0 macf0 0 hAnnounce0 hScrape0
        (List.replicate 8 0 ++ [0, 0, 0, 0] ++ [222, 173, 190, 239]) ip0
      = some ([], "connect", some errMalformedPacket) ∧
    16 ≤ (List.replicate 8 0 ++ [0, 0, 0, 0] ++ [222, 173, 190, 239] : List Nat).length :=
  ⟨by decide, by decide⟩

/-- C4 failing input: spoofing allowed and the announce's ipv4 override
field holds the raw octets 1.2.3.4.  The code feeds those four raw bytes to
net.ParseIP, which expects a textual address and returns nil, so decoding
fails with the malformed-IP client error instead of succeeding with
ip_v4 = 1.2.3.4 as the claim states. -/
theorem parseAnnounce_spoofedIPv4_rejected :
    parseAnnounce cfgSpoof (List.replicate 84 0 ++ [1, 2, 3, 4] ++ List.replicate 10 0) ip0
      = .error errMalformedIP ∧
    ((List.replicate 84 0 ++ [1, 2, 3, 4] ++ List.replicate 10 0 : List Nat).drop 84).take 4
      = [1, 2, 3, 4] ∧
    cfgSpoof.allowIPSpoofing = true :=
  ⟨by decide, by decide, by decide⟩

/-- C5 failing inputs.  First packet: options are 02 01 03 00, a URL-data
entry of length L = 1 (data byte 0x03) followed by end-of-options, which
under the claimed 2 + L stride parses cleanly; the code advances only
1 + L bytes, re-reads the data byte 0x03 as an IPv6 option type, and fails
with malformed packet.  Second packet: options are 03, sixteen zero address
bytes, 00, 00, 02, 200 - an IPv6 entry that under the claimed 17-byte
stride is followed at offset 115 by end-of-options; the code advances 19
bytes, reads the byte at offset 117 as a URL-data option whose length 200
overruns, and fails with malformed packet. -/
theorem optionStride_divergence :
    handleOptionalParameters cfg0 (List.replicate 98 0 ++ [2, 1, 3, 0])
      = .error errMalformedPacket ∧
    handleOptionalParameters cfg0
        (List.replicate 98 0 ++ [3] ++ List.replicate 16 0 ++ [0, 0, 2, 200])
      = .error errMalformedPacket :=
  ⟨by decide, by decide⟩

/-- Every index the options walker reads lies inside the packet. -/
theorem walkReads_lt (packet : List Nat) (fuel : Nat) :
    ∀ idx, ∀ j ∈ walkReads packet fuel idx, j < packet.length := by
  induction fuel with
  | zero =>
    intro idx j hj
    simp [walkReads] at hj
  | succ fuel ih =>
    intro idx j hj
    rw [walkReads] at hj
    by_cases hg : idx < packet.length - 1
    · rw [if_pos hg] at hj
      rcases List.mem_cons.mp hj with rfl | hj2
      · omega
      · split at hj2
        · simp at hj2
        · exact ih (idx + 1) j hj2
        · split at hj2
          · simp at hj2
          · rcases List.mem_cons.mp hj2 with rfl | hj3
            · omega
            · split at hj3
              · simp at hj3
              · exact ih _ j hj3
        · split at hj2
          · simp at hj2
          · rcases List.mem_append.mp hj2 with hj3 | hj3
            · rcases List.mem_map.mp hj3 with ⟨k, hk, rfl⟩
              have hk16 : k < 16 := List.mem_range.mp hk
              omega
            · exact ih _ j hj3
        · simp at hj2
    · rw [if_neg hg] at hj
      simp at hj

/-- If the option entry at idx declares contents that extend past the end
of the packet, the walker fails with the malformed-packet error. -/
theorem walkOptions_oob (cfg : UdpConfig) (packet : List Nat) (fuel idx : Nat)
    (acc : Option (List Nat)) (hfuel : 0 < fuel) (hg : idx < packet.length - 1)
    (hbad : (packet.getD idx 0 = 2 ∧ packet.length < idx + 2 + packet.getD (idx + 1) 0) ∨
            (packet.getD idx 0 = 3 ∧ packet.length < idx + 17)) :
    walkOptions cfg packet fuel idx acc = .error errMalformedPacket := by
  obtain ⟨fuel, rfl⟩ : ∃ f, fuel = f + 1 := ⟨fuel - 1, by omega⟩
  rw [walkOptions, if_pos hg]
  rcases hbad with ⟨h2, hlen⟩ | ⟨h3, hlen⟩
  · split
    · omega
    · omega
    · rw [if_neg (show ¬(packet.length - 1 < idx + 1) by omega)]
      show (if packet.length - 1 < idx + 1 + packet.getD (idx + 1) 0 then
            (Except.error errMalformedPacket : Except TrackerError (Option (List Nat)))
          else walkOptions cfg packet fuel (idx + 1 + packet.getD (idx + 1) 0) acc)
          = Except.error errMalformedPacket
      rw [if_pos (by omega)]
    · omega
    · exact absurd h2 (by assumption)
  · split
    · omega
    · omega
    · omega
    · rw [if_pos (by omega)]
    · exact absurd h3 (by assumption)

/-- C6: the options walker never reads a byte at an index at or past the
packet length (walkReads lists every index each arm reads), and whenever an
entry's declared contents (URL-data length byte or data, IPv6 address
bytes) would extend past the packet end, the walk fails with the
malformed-packet client error. -/
theorem optionWalker_safe (cfg : UdpConfig) (packet : List Nat) (fuel idx : Nat)
    (acc : Option (List Nat)) :
    (∀ j ∈ walkReads packet fuel idx, j < packet.length) ∧
    (0 < fuel → idx < packet.length - 1 →
      ((packet.getD idx 0 = 2 ∧ packet.length < idx + 2 + packet.getD (idx + 1) 0) ∨
       (packet.getD idx 0 = 3 ∧ packet.length < idx + 17)) →
      walkOptions cfg packet fuel idx acc = .error errMalformedPacket) :=
  ⟨walkReads_lt packet fuel idx,
   fun hfuel hg hbad => walkOptions_oob cfg packet fuel idx acc hfuel hg hbad⟩

/-- Witness for C6 at a packet whose URL-data entry declares 50 data bytes
with only one byte left. -/
theorem optionWalker_safe_witness :
    walkOptions cfg0 (List.replicate 98 0 ++ [2, 50, 0]) 101 98 Option.none
      = .error errMalformedPacket ∧
    walkReads (List.replicate 98 0 ++ [2, 50, 0]) 101 98 = [98, 99] :=
  ⟨(optionWalker_safe cfg0 (List.replicate 98 0 ++ [2, 50, 0]) 101 98 Option.none).2
      (by decide) (by decide) (by decide),
   by decide⟩

/-- Closed form of the scrape infohash loop: with enough fuel it yields one
20-byte block per complete 20-byte chunk, in order. -/
theorem infohashLoop_eq (fuel : Nat) (l : List Nat) (hf : l.length ≤ fuel) :
    infohashLoop fuel l
      = (List.range (l.length / 20)).map (fun i => (l.drop (20 * i)).take 20) := by
  induction fuel generalizing l with
  | zero =>
    have h0 : l.length = 0 := Nat.le_zero.mp hf
    have : l.length / 20 = 0 := by omega
    simp [infohashLoop, this]
  | succ fuel ih =>
    by_cases h20 : 20 ≤ l.length
    · rw [infohashLoop, if_pos h20]
      rw [ih (l.drop 20) (by simp only [List.length_drop]; omega)]
      have hdiv : l.length / 20 = (l.length - 20) / 20 + 1 := by omega
      rw [List.length_drop, hdiv, List.range_succ_eq_map]
      simp only [List.map_cons, List.map_map]
      congr 1
      apply List.map_congr_left
      intro i hi
      simp only [Function.comp_apply]
      rw [List.drop_drop]
      congr 2
      omega
    · rw [infohashLoop, if_neg h20]
      have : l.length / 20 = 0 := by omega
      simp [this]

set_option maxRecDepth 20000 in
/-- C7 counterexample: a scrape packet carrying 75 info-hashes (1516 bytes)
is decoded successfully, so parseScrape does not enforce the 74-hash
bound the claim states. -/
theorem parseScrape_seventyFive_ok :
    parseScrape (List.replicate 1516 0) = .ok (List.replicate 75 (List.replicate 20 0)) ∧
    74 < (List.replicate 75 (List.replicate 20 0) : List (List Nat)).length := by
  refine ⟨?_, by decide⟩
  decide

/-- C7 (amended): parseScrape succeeds exactly when the packet length is at
least 36 and the length minus the 16-byte header is a multiple of 20; on
success it returns the 20-byte blocks after the header in packet order (no
upper bound on their number is enforced), and otherwise it fails with the
malformed-packet client error. -/
theorem parseScrape_spec (packet : List Nat) :
    (36 ≤ packet.length → (packet.length - 16) % 20 = 0 →
      parseScrape packet =
        .ok ((List.range ((packet.length - 16) / 20)).map
          (fun i => ((packet.drop 16).drop (20 * i)).take 20))) ∧
    (¬(36 ≤ packet.length ∧ (packet.length - 16) % 20 = 0) →
      parseScrape packet = .error errMalformedPacket) := by
  constructor
  · intro h36 hmod
    simp only [parseScrape]
    rw [if_neg (by omega)]
    rw [if_neg (by simp only [List.length_drop]; omega)]
    rw [infohashLoop_eq ((packet.drop 16).length) (packet.drop 16) le_rfl]
    rw [List.length_drop]
  · intro hbad
    simp only [parseScrape]
    by_cases h36 : packet.length < 36
    · rw [if_pos h36]
    · rw [if_neg h36, if_pos (by simp only [List.length_drop]; omega)]

/-- Witness for C7 (amended) at a 36-byte packet holding one info-hash. -/
theorem parseScrape_spec_witness :
    parseScrape (List.replicate 36 7) =
      .ok ((List.range (((List.replicate 36 7 : List Nat).length - 16) / 20)).map
        (fun i => (((List.replicate 36 7 : List Nat).drop 16).drop (20 * i)).take 20)) :=
  (parseScrape_spec (List.replicate 36 7)).1 (by decide) (by decide)

/-- Any response that starts with a written header echoes the transaction
ID in its bytes 4..8. -/
theorem header_echo (a : Nat) (tx tail : List Nat) (h4 : tx.length = 4) :
    ((putUint32 a ++ (tx ++ tail)).drop 4).take 4 = tx := by
  rw [List.drop_left' (putUint32_length a), List.take_left' h4]

/-- The peer-record fold only appends to its initial buffer. -/
theorem peerFold_eq (ps : List Peer) (init : List Nat) :
    ps.foldl (fun buf p => buf ++ peerBytes p) init
      = init ++ (ps.map peerBytes).flatten := by
  induction ps generalizing init with
  | nil => simp
  | cons p ps ih => simp [ih, List.append_assoc]

/-- The scrape-record fold only appends to its initial buffer. -/
theorem scrapeFold_eq (files : List Scrape) (init : List Nat) :
    files.foldl
        (fun buf f => buf ++ putUint32 f.complete ++ putUint32 0 ++ putUint32 f.incomplete)
        init
      = init ++ (files.map
          (fun f => putUint32 f.complete ++ putUint32 0 ++ putUint32 f.incomplete)).flatten := by
  induction files generalizing init with
  | nil => simp
  | cons f fs ih =>
    simp only [List.foldl_cons, List.map_cons, List.flatten_cons]
    rw [ih]
    simp [List.append_assoc]

/-- C8: for every packet of at least 16 bytes and every source address, if
handlePacket produces a non-empty response then its bytes 4..8 equal the
request's transaction ID, packet bytes 12..16 - for connect, announce,
scrape and error frames alike. -/
theorem handlePacket_echoes_txID (cfg : UdpConfig)
    (macf : List Nat → List Nat → List Nat) (now : Int)
    (hA : AnnounceRequest → Except TrackerError AnnounceResponse)
    (hS : List (List Nat) → Except TrackerError ScrapeResponse)
    (packet srcIP : List Nat) (r : List Nat × String × Option TrackerError)
    (h16 : 16 ≤ packet.length)
    (hr : handlePacket cfg macf now hA hS packet srcIP = some r)
    (hne : r.1 ≠ []) :
    (r.1.drop 4).take 4 = (packet.drop 12).take 4 := by
  have htx : ((packet.drop 12).take 4).length = 4 := by
    simp only [List.length_take, List.length_drop]
    omega
  unfold handlePacket at hr
  rw [if_neg (by omega)] at hr
  set tx := (packet.drop 12).take 4 with htxdef
  by_cases ha0 : beNat ((packet.drop 8).take 4) = 0
  · rw [if_pos ha0] at hr
    by_cases hmagic : packet.take 8 ≠ initialConnectionID
    · rw [if_pos hmagic] at hr
      cases hr
      exact absurd rfl hne
    · rw [if_neg hmagic] at hr
      cases hr
      simp only [writeConnectionID, writeHeader, List.append_assoc]
      exact header_echo 0 tx _ htx
  · rw [if_neg ha0] at hr
    rcases hvc : ValidConnectionID macf (packet.take 8) srcIP now cfg.privateKey with - | valid
    · rw [hvc] at hr
      dsimp only at hr
      cases hr
    · rw [hvc] at hr
      dsimp only at hr
      by_cases hvf : valid = false
      · rw [if_pos hvf] at hr
        cases hr
        simp only [writeError, writeHeader, List.append_assoc]
        exact header_echo 3 tx _ htx
      · rw [if_neg hvf] at hr
        by_cases ha1 : beNat ((packet.drop 8).take 4) = 1
        · rw [if_pos ha1] at hr
          rcases hpa : parseAnnounce cfg packet srcIP with e | req
          · rw [hpa] at hr
            dsimp only at hr
            cases hr
            simp only [writeError, writeHeader, List.append_assoc]
            exact header_echo 3 tx _ htx
          · rw [hpa] at hr
            dsimp only at hr
            rcases hha : hA req with e | resp
            · rw [hha] at hr
              dsimp only at hr
              cases hr
              simp only [writeError, writeHeader, List.append_assoc]
              exact header_echo 3 tx _ htx
            · rw [hha] at hr
              dsimp only at hr
              cases hr
              by_cases h6 : 0 < resp.ipv6Peers.length
              · simp only [writeAnnounce, if_pos h6, writeAnnounceIPv6, peerFold_eq,
                  writeHeader, List.append_assoc]
                exact header_echo 4 tx _ htx
              · simp only [writeAnnounce, if_neg h6, writeAnnounceIPv4, peerFold_eq,
                  writeHeader, List.append_assoc]
                exact header_echo 1 tx _ htx
        · rw [if_neg ha1] at hr
          by_cases ha2 : beNat ((packet.drop 8).take 4) = 2
          · rw [if_pos ha2] at hr
            rcases hps : parseScrape packet with e | req
            · rw [hps] at hr
              dsimp only at hr
              cases hr
              simp only [writeError, writeHeader, List.append_assoc]
              exact header_echo 3 tx _ htx
            · rw [hps] at hr
              dsimp only at hr
              rcases hhs : hS req with e | resp
              · rw [hhs] at hr
                dsimp only at hr
                cases hr
                simp only [writeError, writeHeader, List.append_assoc]
                exact header_echo 3 tx _ htx
              · rw [hhs] at hr
                dsimp only at hr
                cases hr
                rw [writeScrape, scrapeFold_eq]
                simp only [writeHeader, List.append_assoc]
                exact header_echo 2 tx _ htx
          · rw [if_neg ha2] at hr
            cases hr
            simp only [writeError, writeHeader, List.append_assoc]
            exact header_echo 3 tx _ htx

/-- Witness for C8: a well-formed connect request with transaction ID
DE AD BE EF gets a response whose bytes 4..8 are exactly those bytes. -/
theorem handlePacket_echoes_txID_witness :
    ((([0, 0, 0, 0] ++ [222, 173, 190, 239] ++ List.replicate 8 0 : List Nat),
        ("connect" : String), (Option.none : Option TrackerError)).1.drop 4).take 4 =
      (((initialConnectionID ++ [0, 0, 0, 0] ++ [222, 173, 190, 239] : List Nat)).drop 12).take 4 :=
  handlePacket_echoes_txID cfg0 macf0 0 hAnnounce0 hScrape0
    (initialConnectionID ++ [0, 0, 0, 0] ++ [222, 173, 190, 239]) ip0
    ([0, 0, 0, 0] ++ [222, 173, 190, 239] ++ List.replicate 8 0, "connect", Option.none)
    (by decide) (by decide) (by decide)

/-- C9 counterexample: on the empty connection ID the Go code slices
connectionID[:4] out of range and panics (modelled as none); it does not
return false as the claim states. -/
theorem ValidConnectionID_short_panics :
    ValidConnectionID macf0 [] ip0 0 [] = none ∧
    ValidConnectionID macf0 [] ip0 0 [] ≠ some false :=
  ⟨by decide, by decide⟩

/-- C9 (amended): for a connection ID of at least 4 bytes whose length is
not 8, and a MAC whose digests are at least 4 bytes long (HMAC-SHA256
digests have 32), verification returns false; for shorter IDs the code
panics on the out-of-range slice instead of failing closed. -/
theorem ValidConnectionID_wrongLength_false (macf : List Nat → List Nat → List Nat)
    (hmac4 : ∀ k m, 4 ≤ (macf k m).length) (id ip key : List Nat) (now : Int)
    (h4 : 4 ≤ id.length) (h8 : id.length ≠ 8) :
    ValidConnectionID macf id ip now key = some false := by
  unfold ValidConnectionID
  rw [if_neg (by omega)]
  by_cases htime :
      ((beNat (id.take 4) : Int) + ttlSeconds < now ∨
        now + maxClockSkewSeconds < (beNat (id.take 4) : Int))
  · rw [if_pos htime]
  · rw [if_neg htime]
    have hneq : (macf key (id.take 4 ++ ip)).take 4 ≠ id.drop 4 := by
      intro he
      have hlens := congrArg List.length he
      have hm := hmac4 key (id.take 4 ++ ip)
      simp only [List.length_take, List.length_drop] at hlens
      omega
    simp [hneq]

/-- Witness for C9 (amended) at a 9-byte connection ID. -/
theorem ValidConnectionID_wrongLength_false_witness :
    (∀ k m, 4 ≤ (macf0 k m).length) ∧
    4 ≤ (List.replicate 9 0 : List Nat).length ∧
    (List.replicate 9 0 : List Nat).length ≠ 8 ∧
    ValidConnectionID macf0 (List.replicate 9 0) ip0 0 [] = some false :=
  ⟨fun k m => by simp [macf0], by decide, by decide,
   ValidConnectionID_wrongLength_false macf0 (fun k m => by simp [macf0])
     (List.replicate 9 0) ip0 [] 0 (by decide) (by decide)⟩

/-- Length of a flattened list of equal-width blocks. -/
theorem flatten_fixed_length (w : Nat) (L : List (List Nat))
    (hw : ∀ x ∈ L, x.length = w) : L.flatten.length = w * L.length := by
  induction L with
  | nil => simp
  | cons x xs ih =>
    simp only [List.flatten_cons, List.length_append, List.length_cons]
    rw [hw x (by simp), ih (fun y hy => hw y (by simp [hy]))]
    ring

/-- The i-th block of a flattened list of equal-width blocks. -/
theorem flatten_fixed_block (w : Nat) (L : List (List Nat))
    (hw : ∀ x ∈ L, x.length = w) (i : Nat) (hi : i < L.length) :
    (L.flatten.drop (w * i)).take w = L.getD i [] := by
  induction L generalizing i with
  | nil => simp at hi
  | cons x xs ih =>
    cases i with
    | zero =>
      simp only [Nat.mul_zero, List.drop_zero, List.flatten_cons, List.getD]
      rw [List.take_left' (hw x (by simp))]
      simp
    | succ i =>
      have hx : x.length = w := hw x (by simp)
      simp only [List.flatten_cons]
      rw [show w * (i + 1) = w + w * i by ring, ← List.drop_drop,
        List.drop_left' hx]
      have := ih (fun y hy => hw y (by simp [hy])) i (by simpa using hi)
      rw [this]
      simp [List.getD]

/-- C10: for every ScrapeResponse, the encoded scrape response is the
8-byte header followed by exactly one 12-byte triple per file, the middle
four bytes of every triple are literally zero whatever the file's
statistics (downloaded counts are never written), and only the first and
last u32 of a triple depend on that file's complete and incomplete
counts. -/
theorem writeScrape_spec (tx : List Nat) (files : List Scrape) (h4 : tx.length = 4) :
    (writeScrape tx ⟨files⟩).length = 8 + 12 * files.length ∧
    (∀ i, i < files.length →
      ((writeScrape tx ⟨files⟩).drop (8 + 12 * i)).take 12 =
        putUint32 (files.getD i default).complete ++ [0, 0, 0, 0] ++
          putUint32 (files.getD i default).incomplete) := by
  have hws : writeScrape tx ⟨files⟩
      = writeHeader 2 tx ++ (files.map
          (fun f => putUint32 f.complete ++ putUint32 0 ++ putUint32 f.incomplete)).flatten := by
    rw [writeScrape, scrapeFold_eq]
  have hhead : (writeHeader 2 tx).length = 8 := by
    simp [writeHeader, putUint32, h4]
  have hblocks : ∀ x ∈ files.map
      (fun f => putUint32 f.complete ++ putUint32 0 ++ putUint32 f.incomplete),
      x.length = 12 := by
    intro x hx
    rcases List.mem_map.mp hx with ⟨f, -, rfl⟩
    simp [putUint32]
  constructor
  · rw [hws, List.length_append, hhead,
      flatten_fixed_length 12 _ hblocks, List.length_map]
  · intro i hi
    rw [hws, show 8 + 12 * i = (writeHeader 2 tx).length + 12 * i by rw [hhead],
      ← List.drop_drop, List.drop_left,
      flatten_fixed_block 12 _ hblocks i (by simpa using hi)]
    have hget : (files.map
        (fun f => putUint32 f.complete ++ putUint32 0 ++ putUint32 f.incomplete)).getD i []
        = putUint32 (files.getD i default).complete ++ putUint32 0 ++
          putUint32 (files.getD i default).incomplete := by
      rw [List.getD_eq_getElem?_getD, List.getElem?_map,
        List.getElem?_eq_getElem hi]
      simp [List.getD_eq_getElem?_getD, List.getElem?_eq_getElem hi]
    rw [hget]
    rfl

/-- Witness for C10 at a one-file response whose downloaded count is 9:
the middle four bytes of its triple are still zero. -/
theorem writeScrape_spec_witness :
    ([7, 7, 7, 7] : List Nat).length = 4 ∧
    (writeScrape [7, 7, 7, 7] ⟨[⟨1, 9, 2⟩]⟩).length
      = 8 + 12 * ([⟨1, 9, 2⟩] : List Scrape).length ∧
    ((writeScrape [7, 7, 7, 7] ⟨[⟨1, 9, 2⟩]⟩).drop (8 + 12 * 0)).take 12
      = putUint32 (([⟨1, 9, 2⟩] : List Scrape).getD 0 default).complete ++ [0, 0, 0, 0] ++
        putUint32 (([⟨1, 9, 2⟩] : List Scrape).getD 0 default).incomplete :=
  ⟨by decide,
   (writeScrape_spec [7, 7, 7, 7] [⟨1, 9, 2⟩] (by decide)).1,
   (writeScrape_spec [7, 7, 7, 7] [⟨1, 9, 2⟩] (by decide)).2 0 (by decide)⟩
